import Mathlib

/-!
Verification development for the edge supervisor's Modbus coordination core
(TFM_SUPERVISOR_CARGAS).  The definitions below are a shallow embedding of
the Python source under `src/edge/src/`: the polling scheduler's per-unit
backoff and adaptive-timeout logic (`polling_service.py`), the identity
cache and its status transitions (`device_manager.py`), the alert engine's
debounce and auto-resolution logic (`alert_engine.py`), and the alias codec
(`data_normalizer.py`).  Wall-clock and monotonic times are modelled as
rationals; Python dicts are modelled as functions into `Option`; the SQLite
alert table is modelled as a list of rows in query order (most recent
first, matching `ORDER BY timestamp DESC`); Modbus bus transactions are
modelled as oracle parameters giving their outcome.
-/

/-! ## Polling scheduler (`polling_service.py`) -/

/-- Per-unit scheduling state kept by `PollingService`:
`_consec_errors[unit_id]` and `_next_allowed_poll_ts[unit_id]`. -/
structure PollUnitState where
  consecErrors : ℕ
  nextAllowed : ℚ
  deriving DecidableEq, Repr

/-- `polling_service.py` lines 248-254 and 269-276: on a failed poll the
counter is incremented and the next allowed poll time is set to
`now + min(base * 2 ** (errors - 1), cap)`. -/
def poll_failure_step (base cap : ℚ) (now : ℚ) (s : PollUnitState) : PollUnitState :=
  let e := s.consecErrors + 1
  { consecErrors := e, nextAllowed := now + min (base * 2 ^ (e - 1)) cap }

/-- `polling_service.py` lines 235-236: on a successful poll the backoff
gate is cleared and the consecutive error counter reset. -/
def poll_success_step (_s : PollUnitState) : PollUnitState :=
  { consecErrors := 0, nextAllowed := 0 }

/-- `polling_service.py` lines 221-229 and 277-280: the scoped timeout
override around one poll transaction.  Given the client timeout before the
transaction (`old`) and the unit's consecutive error count, the first
component is the timeout applied to the transaction
(`min(Config.MODBUS_TIMEOUT * 2 ** min(errors, 3), 1.2)` when `errors > 0`,
otherwise the client timeout is left untouched) and the second component is
the client timeout after the `finally` block restores it. -/
def poll_timeout_scope (baseline old : ℚ) (errors : ℕ) : ℚ × ℚ :=
  if 0 < errors then (min (baseline * 2 ^ min errors 3) (6/5), old) else (old, old)

/-! ## Identity cache (`device_manager.py`) -/

/-- Lifecycle strings used by `Device.status`. -/
inductive DevStatus where
  | unknown
  | online
  | degraded
  | offline
  deriving DecidableEq, Repr

/-- The fields of `device_manager.Device` that the cache operations under
verification read or write.  `unitId` is `Device.unit_id`, `alias` the
cached alias, the rest is the liveness state. -/
structure Device where
  unitId : ℕ
  status : DevStatus
  lastSeen : Option ℚ
  consecutiveErrors : ℕ
  deriving DecidableEq, Repr

/-- The identity cache `DeviceManager.devices : Dict[int, Device]`. -/
def DeviceCache := ℕ → Option Device

/-- `DeviceManager.update_device_status` (lines 263-286) acting on one
cached device: on success the device goes online with a fresh `last_seen`
and a cleared error counter; on failure the counter is incremented, and the
status becomes `offline` at three or more consecutive errors and `degraded`
at one or two. -/
def update_device_status_dev (now : ℚ) (d : Device) (success : Bool) : Device :=
  if success then
    { d with status := .online, lastSeen := some now, consecutiveErrors := 0 }
  else
    let e := d.consecutiveErrors + 1
    if 3 ≤ e then { d with consecutiveErrors := e, status := .offline }
    else { d with consecutiveErrors := e, status := .degraded }

/-- `DeviceManager.update_device_status` at the cache level: a `unit_id`
not present in `self.devices` returns immediately without touching the
cache. -/
def update_device_status (now : ℚ) (cache : DeviceCache) (u : ℕ) (success : Bool) :
    DeviceCache :=
  match cache u with
  | none => cache
  | some d => fun v => if v = u then some (update_device_status_dev now d success) else cache v

/-- A sequence of `update_device_status` calls, each with its own wall
clock, unit id and outcome. -/
def run_status_updates (cache : DeviceCache) : List (ℚ × ℕ × Bool) → DeviceCache
  | [] => cache
  | (t, u, b) :: rest => run_status_updates (update_device_status t cache u b) rest

/-- The spec's `DeviceState` invariant (§3): at least one consecutive error
forces `degraded` or `offline`, three or more force `offline`. -/
def deviceInvariant (d : Device) : Prop :=
  (1 ≤ d.consecutiveErrors → d.status = .degraded ∨ d.status = .offline) ∧
  (3 ≤ d.consecutiveErrors → d.status = .offline)

instance (d : Device) : Decidable (deviceInvariant d) := by
  unfold deviceInvariant; infer_instance

/-- The invariant for every device held in the cache. -/
def cacheInvariant (cache : DeviceCache) : Prop :=
  ∀ u d, cache u = some d → deviceInvariant d

/-- `DeviceManager.change_unit_id` (lines 433-479).  The two bus writes
(the Unit-ID config register and the EEPROM commit) are oracles `writeOk`
and `saveOk`.  Returns the Python boolean result and the cache after the
call. -/
def change_unit_id (now : ℚ) (cache : DeviceCache) (oldId newId : ℕ)
    (writeOk saveOk : Bool) : Bool × DeviceCache :=
  if newId < 1 ∨ 247 < newId then (false, cache)
  else if (cache newId).isSome ∧ newId ≠ oldId then (false, cache)
  else if !writeOk then (false, update_device_status now cache oldId false)
  else if !saveOk then (false, update_device_status now cache oldId false)
  else
    let moved : DeviceCache :=
      match cache oldId with
      | some d => fun v =>
          if v = newId then some { d with unitId := newId }
          else if v = oldId then none
          else cache v
      | none => cache
    (true, update_device_status now moved newId true)

/-- `DeviceManager.discover_devices` (lines 110-193), abstracted over the
bus: `probe u` is the combined outcome of the vendor-register probe of unit
`u` followed by `_read_device_identity` (`none` when the unit does not
answer or the identity read fails, `some d` when a full identity is built).
The result is the updated cache, the `found_devices` list and the list of
units for which a probe transaction was submitted, in bus order
(`range(unit_id_min, unit_id_max + 1)`). -/
def discover_devices (uMin uMax : ℕ) (probe : ℕ → Option Device) (cache : DeviceCache) :
    (DeviceCache × List Device) × List ℕ :=
  let units := List.range' uMin (uMax + 1 - uMin)
  (units.foldl
    (fun acc u =>
      match probe u with
      | some d => (fun v => if v = u then some d else acc.1 v, acc.2 ++ [d])
      | none => acc)
    (cache, []), units)

/-! ## First theorems: backoff, status invariant, frame conditions -/

/-- C1: after the poller observes the k-th consecutive failure of a unit
(k ≥ 1) at wall-clock time `now`, the next allowed poll time equals
`now + min(backoff_base * 2^(k-1), backoff_cap)`; under the default
configuration (base 5 s, cap 60 s) the delay is 5·2^(k-1) seconds for the
first four failures and stays capped at 60 s from the fifth failure on. -/
theorem c1_backoff_after_kth_failure (base cap now : ℚ) (s : PollUnitState)
    (k : ℕ) (hk : 1 ≤ k) (h : s.consecErrors = k - 1) :
    (poll_failure_step base cap now s).consecErrors = k ∧
    (poll_failure_step base cap now s).nextAllowed = now + min (base * 2 ^ (k - 1)) cap ∧
    (k ≤ 4 → min ((5 : ℚ) * 2 ^ (k - 1)) 60 = 5 * 2 ^ (k - 1)) ∧
    (5 ≤ k → min ((5 : ℚ) * 2 ^ (k - 1)) 60 = 60) := by
  have hk1 : k - 1 + 1 = k := Nat.succ_pred_eq_of_pos hk
  refine ⟨by simp [poll_failure_step, h, hk1], by simp [poll_failure_step, h, hk1], ?_, ?_⟩
  · intro h4
    have hle : (5 : ℚ) * 2 ^ (k - 1) ≤ 60 := by
      have : (2 : ℚ) ^ (k - 1) ≤ 2 ^ 3 := by
        apply pow_le_pow_right₀ (by norm_num)
        omega
      nlinarith
    exact min_eq_left hle
  · intro h5
    have hge : (60 : ℚ) ≤ 5 * 2 ^ (k - 1) := by
      have : (2 : ℚ) ^ 4 ≤ 2 ^ (k - 1) := by
        apply pow_le_pow_right₀ (by norm_num)
        omega
      nlinarith
    exact min_eq_right hge

/-- Witness for C1 at the third consecutive failure with defaults. -/
theorem c1_backoff_witness :
    (poll_failure_step 5 60 100 ⟨2, 0⟩).consecErrors = 3 ∧
    (poll_failure_step 5 60 100 ⟨2, 0⟩).nextAllowed = 100 + min ((5 : ℚ) * 2 ^ (3 - 1)) 60 ∧
    (3 ≤ 4 → min ((5 : ℚ) * 2 ^ (3 - 1)) 60 = 5 * 2 ^ (3 - 1)) ∧
    (5 ≤ 3 → min ((5 : ℚ) * 2 ^ (3 - 1)) 60 = 60) :=
  c1_backoff_after_kth_failure 5 60 100 ⟨2, 0⟩ 3 (by norm_num) rfl

/-- The single-device invariant holds after any `update_device_status`
call, whatever the prior state. -/
theorem update_device_status_dev_invariant (now : ℚ) (d : Device) (b : Bool) :
    deviceInvariant (update_device_status_dev now d b) := by
  cases b with
  | true => simp [deviceInvariant, update_device_status_dev]
  | false =>
    by_cases h3 : 3 ≤ d.consecutiveErrors + 1
    · simp [deviceInvariant, update_device_status_dev, h3]
    · simp [deviceInvariant, update_device_status_dev, h3]

/-- C2: for every identity cache satisfying the state invariant and every
sequence of `update_device_status` calls, the invariant holds after each
call (consecutive_error_count ≥ 1 forces Degraded or Offline, ≥ 3 forces
Offline); moreover a successful operation puts the device Online and resets
consecutive_error_count to 0. -/
theorem c2_status_invariant (cache : DeviceCache) (h : cacheInvariant cache)
    (calls : List (ℚ × ℕ × Bool)) :
    cacheInvariant (run_status_updates cache calls) ∧
    (∀ now d, (update_device_status_dev now d true).consecutiveErrors = 0 ∧
      (update_device_status_dev now d true).status = .online) := by
  constructor
  · induction calls generalizing cache with
    | nil => exact h
    | cons c rest ih =>
      obtain ⟨t, u, b⟩ := c
      apply ih
      intro v d hv
      unfold update_device_status at hv
      cases hcu : cache u with
      | none =>
        rw [hcu] at hv
        exact h v d hv
      | some d0 =>
        rw [hcu] at hv
        by_cases hvu : v = u
        · subst hvu
          simp at hv
          exact hv ▸ update_device_status_dev_invariant t d0 b
        · simp [hvu] at hv
          exact h v d hv
  · intro now d
    simp [update_device_status_dev]

/-- Witness for C2: a concrete one-device cache run through a concrete
call sequence. -/
theorem c2_status_invariant_witness :
    cacheInvariant (run_status_updates
      (fun u => if u = 2 then some ⟨2, .online, some 0, 0⟩ else none)
      [(1, 2, false), (2, 2, false), (3, 2, false), (4, 2, true)]) ∧
    (∀ now d, (update_device_status_dev now d true).consecutiveErrors = 0 ∧
      (update_device_status_dev now d true).status = .online) :=
  c2_status_invariant _
    (by
      intro u d hu
      by_cases h2 : u = 2
      · subst h2
        simp at hu
        subst hu
        exact ⟨by intro h; exact absurd h (by norm_num), by intro h; exact absurd h (by norm_num)⟩
      · simp [h2] at hu)
    _

/-- C10: calling `update_device_status` for a unit id not present in the
cache, with either outcome, leaves the whole cache unchanged (in
particular no entry is created). -/
theorem c10_update_missing_unit_frame (now : ℚ) (cache : DeviceCache) (u : ℕ)
    (b : Bool) (h : cache u = none) :
    update_device_status now cache u b = cache := by
  unfold update_device_status
  rw [h]

/-- Witness for C10 on a concrete cache missing unit 7. -/
theorem c10_update_missing_unit_witness :
    update_device_status 5 (fun u => if u = 2 then some ⟨2, .online, some 0, 0⟩ else none) 7 true
      = (fun u => if u = 2 then some ⟨2, .online, some 0, 0⟩ else none) :=
  c10_update_missing_unit_frame 5 _ 7 true (by norm_num)

/-- C5: if the target unit id of a Unit-ID change already exists in the
cache (and differs from the source), `change_unit_id` fails and leaves the
cache untouched; and whenever the entry actually moves away from the old
id, the new id was free in the cache beforehand. -/
theorem c5_change_unit_id_collision (now : ℚ) (cache : DeviceCache) (oldId newId : ℕ)
    (writeOk saveOk : Bool) :
    ((cache newId).isSome → newId ≠ oldId →
      change_unit_id now cache oldId newId writeOk saveOk = (false, cache)) ∧
    (∀ d, cache oldId = some d → oldId ≠ newId →
      (change_unit_id now cache oldId newId writeOk saveOk).2 oldId = none →
      cache newId = none) := by
  constructor
  · intro hs hne
    unfold change_unit_id
    by_cases hr : newId < 1 ∨ 247 < newId
    · rw [if_pos hr]
    · rw [if_neg hr, if_pos ⟨hs, hne⟩]
  · intro d hd hne hres
    by_cases hcn : cache newId = none
    · exact hcn
    · exfalso
      have hcol : (cache newId).isSome ∧ newId ≠ oldId :=
        ⟨Option.isSome_iff_ne_none.mpr hcn, fun hcontra => hne hcontra.symm⟩
      unfold change_unit_id at hres
      by_cases hr : newId < 1 ∨ 247 < newId
      · rw [if_pos hr] at hres
        simp [hd] at hres
      · rw [if_neg hr, if_pos hcol] at hres
        simp [hd] at hres

/-- Witness for C5 on a concrete two-device cache. -/
theorem c5_change_unit_id_witness :
    change_unit_id 0
      (fun u => if u = 2 then some ⟨2, .online, some 0, 0⟩
                else if u = 3 then some ⟨3, .online, some 0, 0⟩ else none)
      2 3 true true
      = (false, fun u => if u = 2 then some ⟨2, .online, some 0, 0⟩
                else if u = 3 then some ⟨3, .online, some 0, 0⟩ else none) :=
  (c5_change_unit_id_collision 0 _ 2 3 true true).1 (by norm_num) (by norm_num)

/-- C6: a discovery call over an empty range (min > max) submits no probe
transaction for any unit, enrolls nothing into the cache, and returns an
empty device list. -/
theorem c6_empty_discovery_range (uMin uMax : ℕ) (probe : ℕ → Option Device)
    (cache : DeviceCache) (h : uMax < uMin) :
    (discover_devices uMin uMax probe cache).2 = [] ∧
    (discover_devices uMin uMax probe cache).1.1 = cache ∧
    (discover_devices uMin uMax probe cache).1.2 = [] := by
  have hz : uMax + 1 - uMin = 0 := by omega
  refine ⟨?_, ?_, ?_⟩ <;> simp [discover_devices, hz]

/-- Witness for C6 at the concrete empty range 2..1. -/
theorem c6_empty_discovery_witness :
    (discover_devices 2 1 (fun _ => none) (fun _ => none)).2 = [] ∧
    (discover_devices 2 1 (fun _ => none) (fun _ => none)).1.1 = (fun _ => none) ∧
    (discover_devices 2 1 (fun _ => none) (fun _ => none)).1.2 = [] :=
  c6_empty_discovery_range 2 1 (fun _ => none) (fun _ => none) (by norm_num)

/-- C8: with the default baseline of 0.3 s, the timeout applied to a poll
transaction stays within [0.3 s, 1.2 s]; it equals the baseline when the
unit has no consecutive errors, satisfies the doubling-up-to-the-ceiling
recurrence `applied(k+1) = min(2 * applied(k), 1.2)`, is restored to the
prior client timeout on every exit path of the transaction, and returns to
the baseline after a success resets the error counter. -/
theorem c8_adaptive_timeout (old : ℚ) (k : ℕ) (s : PollUnitState) (h : old = 3/10) :
    ((3 : ℚ)/10 ≤ (poll_timeout_scope (3/10) old k).1 ∧
      (poll_timeout_scope (3/10) old k).1 ≤ 6/5) ∧
    (poll_timeout_scope (3/10) old 0).1 = 3/10 ∧
    (poll_timeout_scope (3/10) old (k+1)).1
      = min (2 * (poll_timeout_scope (3/10) old k).1) (6/5) ∧
    (poll_timeout_scope (3/10) old k).2 = old ∧
    (poll_timeout_scope (3/10) old (poll_success_step s).consecErrors).1 = 3/10 := by
  subst h
  rcases k with _ | _ | _ | k
  · norm_num [poll_timeout_scope, poll_success_step, min_def]
  · norm_num [poll_timeout_scope, poll_success_step, min_def]
  · norm_num [poll_timeout_scope, poll_success_step, min_def]
  · have h3 : min (k + 3) 3 = 3 := by omega
    have h4 : min (k + 3 + 1) 3 = 3 := by omega
    norm_num [poll_timeout_scope, poll_success_step, h3, h4, min_def]

/-- Witness for C8 at two consecutive errors. -/
theorem c8_adaptive_timeout_witness :
    ((3 : ℚ)/10 ≤ (poll_timeout_scope (3/10) (3/10) 2).1 ∧
      (poll_timeout_scope (3/10) (3/10) 2).1 ≤ 6/5) ∧
    (poll_timeout_scope (3/10) (3/10) 0).1 = 3/10 ∧
    (poll_timeout_scope (3/10) (3/10) (2+1)).1
      = min (2 * (poll_timeout_scope (3/10) (3/10) 2).1) (6/5) ∧
    (poll_timeout_scope (3/10) (3/10) 2).2 = 3/10 ∧
    (poll_timeout_scope (3/10) (3/10) (poll_success_step ⟨5, 0⟩).consecErrors).1 = 3/10 :=
  c8_adaptive_timeout (3/10) 2 ⟨5, 0⟩ rfl

/-! ## Alert engine (`alert_engine.py`) -/

/-- One row of the `alerts` table in the shape `Database.get_alerts`
returns it: autoincrement id, optional sensor id, alert code, human
message, acknowledged flag.  (`level`, `rig_id` and `timestamp` are never
read by the logic under verification and are omitted.) -/
structure AlertRow where
  id : ℤ
  sensorId : Option String
  code : String
  message : String
  ack : Bool
  deriving DecidableEq, Repr

/-- `DEBOUNCE_WINDOW` from `alert_engine.py` (60 s). -/
def DEBOUNCE_WINDOW : ℚ := 60

/-- Debounce / active-alert cache key: (sensor or device id, alert code). -/
abbrev AlertKey := String × String

/-- `pat` is a leading run of `l` (helper for Python's `in` on strings). -/
def charsLeading : List Char → List Char → Bool
  | [], _ => true
  | _ :: _, [] => false
  | a :: as, b :: bs => a == b && charsLeading as bs

/-- Occurrence of `pat` anywhere in the character list. -/
def charsHas (pat : List Char) : List Char → Bool
  | [] => charsLeading pat []
  | c :: rest => charsLeading pat (c :: rest) || charsHas pat rest

/-- Python's substring test `pat in s`. -/
def strHas (s pat : String) : Bool := charsHas pat.data s.data

/-- `AlertEngine._should_create_alert` (lines 390-417): first emission for
the key is always allowed and recorded; otherwise the alert is refused
while `now - last < DEBOUNCE_WINDOW` and allowed (recording `now`) once
that has elapsed.  Returns the decision and the updated
`_last_alert_cache`. -/
def should_create_alert (cache : AlertKey → Option ℚ) (key : AlertKey) (now : ℚ) :
    Bool × (AlertKey → Option ℚ) :=
  match cache key with
  | none => (true, fun k => if k = key then some now else cache k)
  | some t =>
    if now - t < DEBOUNCE_WINDOW then (false, cache)
    else (true, fun k => if k = key then some now else cache k)

/-- `Database.acknowledge_alert`: `UPDATE alerts SET ack = 1 WHERE id = ?`. -/
def acknowledge_alert (db : List AlertRow) (i : ℤ) : List AlertRow :=
  db.map fun a => if a.id = i then { a with ack := true } else a

/-- The match test in the loop body of
`AlertEngine._auto_acknowledge_all_alerts` (lines 541-552): either a sensor
alert with the exact (sensor_id, code), or — when the target is a
`device_<n>` key — an alert with the right code whose message mentions
`Unit <n>` (with `<n>` recovered by deleting every occurrence of
`device_`). -/
def alertRowMatches (target code : String) (a : AlertRow) : Bool :=
  (a.sensorId == some target && a.code == code) ||
  (a.code == code && target.startsWith "device_" &&
    strHas a.message ("Unit " ++ target.replace "device_" ""))

/-- The loop of `_auto_acknowledge_all_alerts` over the pre-fetched list of
active alerts: each matching row is acknowledged in the database as it is
visited.  The second component is the list of acknowledged ids in call
order. -/
def ackMatchingLoop (target code : String) (db : List AlertRow) :
    List AlertRow → List AlertRow × List ℤ
  | [] => (db, [])
  | a :: rest =>
    if alertRowMatches target code a then
      let r := ackMatchingLoop target code (acknowledge_alert db a.id) rest
      (r.1, a.id :: r.2)
    else ackMatchingLoop target code db rest

/-- `AlertEngine._auto_acknowledge_all_alerts` (lines 520-572): fetch the
unacknowledged alerts (`get_alerts(ack=False, limit=1000)`, in query
order), then acknowledge every matching one. -/
def auto_acknowledge_all_alerts (db : List AlertRow) (target code : String) :
    List AlertRow × List ℤ :=
  ackMatchingLoop target code db ((db.filter fun a => !a.ack).take 1000)

/-- The alert engine state touched by threshold checking:
`_last_alert_cache`, `_active_alerts_cache` and the alerts table. -/
structure AlertEngineState where
  lastAlertCache : AlertKey → Option ℚ
  activeAlertsCache : AlertKey → Option ℤ
  db : List AlertRow

/-- `AlertEngine._create_alert` (lines 420-437): insert the row and return
its id; when the insert raises (`insertOk = false`) the exception is caught
and the sentinel id -1 is returned with the table unchanged.  `newId` is
the autoincrement id the store would assign. -/
def create_alert (db : List AlertRow) (row : AlertRow) (insertOk : Bool) (newId : ℤ) :
    List AlertRow × ℤ :=
  if insertOk then (db ++ [{ row with id := newId, ack := false }], newId) else (db, -1)

/-- `AlertEngine.check_measurement_thresholds` (lines 102-214).  Result:
((created alert id if any, new engine state), ids acknowledged during the
call).  The Python `if/elif` that computes `value_in_range` is equivalent
to the conjunction of the two violation tests used here; the human message
of a created alert is abbreviated (no theorem reads it). -/
def check_measurement_thresholds (st : AlertEngineState) (sensorId : String)
    (value : ℚ) (alarmLo alarmHi : Option ℚ) (now : ℚ)
    (insertOk : Bool) (newId : ℤ) : (Option ℤ × AlertEngineState) × List ℤ :=
  if alarmLo = none ∧ alarmHi = none then ((none, st), [])
  else
    let loViol : Bool := match alarmLo with
      | some lo => decide (value < lo)
      | none => false
    let hiViol : Bool := match alarmHi with
      | some hi => decide (hi < value)
      | none => false
    if !loViol && !hiViol then
      let rLo := auto_acknowledge_all_alerts st.db sensorId "THRESHOLD_EXCEEDED_LO"
      let rHi := auto_acknowledge_all_alerts rLo.1 sensorId "THRESHOLD_EXCEEDED_HI"
      let ac := fun k =>
        if k = (sensorId, "THRESHOLD_EXCEEDED_LO") then none
        else if k = (sensorId, "THRESHOLD_EXCEEDED_HI") then none
        else st.activeAlertsCache k
      ((none, { st with db := rHi.1, activeAlertsCache := ac }), rLo.2 ++ rHi.2)
    else
      let code := if loViol then "THRESHOLD_EXCEEDED_LO" else "THRESHOLD_EXCEEDED_HI"
      let deb := should_create_alert st.lastAlertCache (sensorId, code) now
      if !deb.1 then ((none, { st with lastAlertCache := deb.2 }), [])
      else
        let ins := create_alert st.db
          { id := 0, sensorId := some sensorId, code := code,
            message := "Sensor " ++ sensorId ++ ": threshold violation", ack := false }
          insertOk newId
        let ac := fun k => if k = (sensorId, code) then some ins.2 else st.activeAlertsCache k
        ((some ins.2, { lastAlertCache := deb.2, activeAlertsCache := ac, db := ins.1 }), [])

/-! ## Lemmas about the auto-acknowledgement loop -/

/-- Acknowledging a set of ids at once (the cumulative effect of the loop's
`acknowledge_alert` calls). -/
def setAckIn (ids : List ℤ) (db : List AlertRow) : List AlertRow :=
  db.map fun a => if a.id ∈ ids then { a with ack := true } else a

theorem setAckIn_nil (db : List AlertRow) : setAckIn [] db = db := by
  simp [setAckIn]

theorem setAckIn_acknowledge (i : ℤ) (ids : List ℤ) (db : List AlertRow) :
    setAckIn ids (acknowledge_alert db i) = setAckIn (i :: ids) db := by
  unfold setAckIn acknowledge_alert
  rw [List.map_map]
  apply List.map_congr_left
  intro a _
  obtain ⟨ia, sa, ca, ma, ka⟩ := a
  by_cases h : ia = i
  · simp [h, Function.comp]
  · simp [h, Function.comp]

/-- A match implies the row carries the code of the pass. -/
theorem alertRowMatches_code {target code : String} {a : AlertRow}
    (h : alertRowMatches target code a = true) : a.code = code := by
  simp only [alertRowMatches, Bool.or_eq_true, Bool.and_eq_true, beq_iff_eq] at h
  rcases h with ⟨_, h⟩ | ⟨⟨h, _⟩, _⟩ <;> exact h

/-- A sensor alert with the exact key always matches. -/
theorem alertRowMatches_of_sensor {target code : String} {a : AlertRow}
    (hs : a.sensorId = some target) (hc : a.code = code) :
    alertRowMatches target code a = true := by
  simp [alertRowMatches, hs, hc]

theorem ackMatchingLoop_snd (t c : String) (db l : List AlertRow) :
    (ackMatchingLoop t c db l).2 = (l.filter (alertRowMatches t c)).map (·.id) := by
  induction l generalizing db with
  | nil => rfl
  | cons a rest ih =>
    by_cases h : alertRowMatches t c a
    · simp [ackMatchingLoop, h, ih]
    · simp [ackMatchingLoop, h, ih]

theorem ackMatchingLoop_fst (t c : String) (db l : List AlertRow) :
    (ackMatchingLoop t c db l).1
      = setAckIn ((l.filter (alertRowMatches t c)).map (·.id)) db := by
  induction l generalizing db with
  | nil => simp [ackMatchingLoop, setAckIn_nil]
  | cons a rest ih =>
    by_cases h : alertRowMatches t c a
    · simp only [ackMatchingLoop, h, if_true, List.filter_cons_of_pos, List.map_cons]
      rw [ih, setAckIn_acknowledge]
    · simp [ackMatchingLoop, h, ih]

/-- `setAckIn` does not change the id column. -/
theorem setAckIn_map_id (ids : List ℤ) (db : List AlertRow) :
    (setAckIn ids db).map (·.id) = db.map (·.id) := by
  unfold setAckIn
  rw [List.map_map]
  apply List.map_congr_left
  intro a _
  by_cases h : a.id ∈ ids <;> simp [h, Function.comp]

/-- `setAckIn` never lowers the number of acknowledged rows: the
unacknowledged rows after it are at most those before. -/
theorem setAckIn_filter_le (ids : List ℤ) (db : List AlertRow) :
    ((setAckIn ids db).filter fun a => !a.ack).length
      ≤ (db.filter fun a => !a.ack).length := by
  induction db with
  | nil => simp [setAckIn]
  | cons a rest ih =>
    simp only [setAckIn, List.map_cons, List.filter_cons] at ih ⊢
    by_cases hm : a.id ∈ ids
    · simp only [hm, if_true]
      by_cases hk : a.ack <;> simp [hk] <;> omega
    · simp only [hm, if_false]
      by_cases hk : a.ack <;> simp [hk] <;> omega

/-- In a table with no duplicate ids, rows are determined by their id. -/
theorem alertRow_eq_of_id (db : List AlertRow) (hn : (db.map (·.id)).Nodup)
    {a b : AlertRow} (ha : a ∈ db) (hb : b ∈ db) (hid : a.id = b.id) : a = b :=
  List.inj_on_of_nodup_map hn ha hb hid

theorem auto_ack_spec (db : List AlertRow) (t c : String) :
    auto_acknowledge_all_alerts db t c
      = (setAckIn ((((db.filter fun a => !a.ack).take 1000).filter
            (alertRowMatches t c)).map (·.id)) db,
         (((db.filter fun a => !a.ack).take 1000).filter
            (alertRowMatches t c)).map (·.id)) := by
  unfold auto_acknowledge_all_alerts
  rw [Prod.ext_iff]
  exact ⟨ackMatchingLoop_fst t c db _, ackMatchingLoop_snd t c db _⟩

theorem auto_ack_map_id (db : List AlertRow) (t c : String) :
    (auto_acknowledge_all_alerts db t c).1.map (·.id) = db.map (·.id) := by
  rw [auto_ack_spec]
  exact setAckIn_map_id _ _

theorem auto_ack_filter_le (db : List AlertRow) (t c : String) :
    ((auto_acknowledge_all_alerts db t c).1.filter fun a => !a.ack).length
      ≤ (db.filter fun a => !a.ack).length := by
  rw [auto_ack_spec]
  exact setAckIn_filter_le _ _

/-- Every unacknowledged matching row is acknowledged by the pass, exactly
once, provided the table fits the query limit and has unique ids. -/
theorem auto_ack_complete (db : List AlertRow) (t c : String)
    (hn : (db.map (·.id)).Nodup)
    (hlim : (db.filter fun a => !a.ack).length ≤ 1000)
    {a : AlertRow} (ha : a ∈ db) (hak : a.ack = false)
    (hm : alertRowMatches t c a = true) :
    a.id ∈ (auto_acknowledge_all_alerts db t c).2 ∧
    (auto_acknowledge_all_alerts db t c).2.count a.id = 1 ∧
    ∀ b ∈ (auto_acknowledge_all_alerts db t c).1, b.id = a.id → b.ack = true := by
  have htake : (db.filter fun x => !x.ack).take 1000 = db.filter fun x => !x.ack :=
    List.take_of_length_le hlim
  have hmemf : a ∈ (db.filter fun x => !x.ack).filter (alertRowMatches t c) := by
    rw [List.mem_filter, List.mem_filter]
    exact ⟨⟨ha, by simp [hak]⟩, hm⟩
  have hsub : ((db.filter fun x => !x.ack).filter (alertRowMatches t c)).Sublist db :=
    (List.filter_sublist _).trans (List.filter_sublist _)
  have hnodup : (((db.filter fun x => !x.ack).filter (alertRowMatches t c)).map
      (·.id)).Nodup := (hsub.map (·.id)).nodup hn
  have haid : a.id ∈ ((db.filter fun x => !x.ack).filter (alertRowMatches t c)).map
      (·.id) := List.mem_map_of_mem _ hmemf
  rw [auto_ack_spec, htake]
  refine ⟨haid, List.count_eq_one_of_mem hnodup haid, ?_⟩
  intro b hb hbid
  rw [setAckIn, List.mem_map] at hb
  rcases hb with ⟨x, hx, hfx⟩
  by_cases hxi : x.id ∈ ((db.filter fun y => !y.ack).filter (alertRowMatches t c)).map
      (·.id)
  · rw [if_pos hxi] at hfx
    rw [← hfx]
  · rw [if_neg hxi] at hfx
    subst hfx
    exact absurd (hbid ▸ haid) hxi

/-- A row whose code is not the code of the pass survives the pass
unchanged and its id never enters the acknowledgement log. -/
theorem auto_ack_preserves (db : List AlertRow) (t c : String)
    (hn : (db.map (·.id)).Nodup)
    {b : AlertRow} (hb : b ∈ db) (hc : b.code ≠ c) :
    b ∈ (auto_acknowledge_all_alerts db t c).1 ∧
    b.id ∉ (auto_acknowledge_all_alerts db t c).2 := by
  have hnot : b.id ∉ (((db.filter fun x => !x.ack).take 1000).filter
      (alertRowMatches t c)).map (·.id) := by
    intro hmem
    rcases List.mem_map.mp hmem with ⟨x, hx, hxid⟩
    have hxdb : x ∈ db := by
      have h1 : x ∈ (db.filter fun y => !y.ack).take 1000 := (List.mem_filter.mp hx).1
      have h2 : x ∈ db.filter fun y => !y.ack :=
        (List.take_sublist _ _).mem h1
      exact (List.mem_filter.mp h2).1
    have hxm : alertRowMatches t c x = true := (List.mem_filter.mp hx).2
    have hxb : x = b := alertRow_eq_of_id db hn hxdb hb hxid
    exact hc (hxb ▸ alertRowMatches_code hxm)
  rw [auto_ack_spec]
  constructor
  · rw [setAckIn, List.mem_map]
    exact ⟨b, hb, by rw [if_neg hnot]⟩
  · exact hnot

/-- An id whose rows are all acknowledged never enters the log of a pass. -/
theorem auto_ack_not_in_log (db : List AlertRow) (t c : String) (i : ℤ)
    (hackd : ∀ b ∈ db, b.id = i → b.ack = true) :
    i ∉ (auto_acknowledge_all_alerts db t c).2 := by
  rw [auto_ack_spec]
  intro hmem
  rcases List.mem_map.mp hmem with ⟨x, hx, hxid⟩
  have h1 : x ∈ (db.filter fun y => !y.ack).take 1000 := (List.mem_filter.mp hx).1
  have h2 : x ∈ db.filter fun y => !y.ack := (List.take_sublist _ _).mem h1
  have hxdb : x ∈ db := (List.mem_filter.mp h2).1
  have hxack : ¬ x.ack := by
    have := (List.mem_filter.mp h2).2
    simpa using this
  exact hxack (hackd x hxdb hxid)

/-- Rows already acknowledged at a given id stay acknowledged through a
pass. -/
theorem auto_ack_keeps_acked (db : List AlertRow) (t c : String) (i : ℤ)
    (h : ∀ b ∈ db, b.id = i → b.ack = true) :
    ∀ b ∈ (auto_acknowledge_all_alerts db t c).1, b.id = i → b.ack = true := by
  rw [auto_ack_spec]
  intro b hb hbid
  rw [setAckIn, List.mem_map] at hb
  rcases hb with ⟨x, hx, hfx⟩
  by_cases hxi : x.id ∈ (((db.filter fun y => !y.ack).take 1000).filter
      (alertRowMatches t c)).map (·.id)
  · rw [if_pos hxi] at hfx
    rw [← hfx]
  · rw [if_neg hxi] at hfx
    subst hfx
    exact h _ hx hbid

/-- Branch reduction: with at least one threshold configured and the value
inside the configured bounds, `check_measurement_thresholds` takes the
auto-resolution path. -/
theorem check_in_range_eq (st : AlertEngineState) (sensorId : String)
    (value : ℚ) (alarmLo alarmHi : Option ℚ) (now : ℚ) (insertOk : Bool) (newId : ℤ)
    (hcfg : ¬ (alarmLo = none ∧ alarmHi = none))
    (hlo : ∀ lo ∈ alarmLo, ¬ value < lo)
    (hhi : ∀ hi ∈ alarmHi, ¬ hi < value) :
    check_measurement_thresholds st sensorId value alarmLo alarmHi now insertOk newId
      = ((none,
          { st with
            db := (auto_acknowledge_all_alerts
                (auto_acknowledge_all_alerts st.db sensorId "THRESHOLD_EXCEEDED_LO").1
                sensorId "THRESHOLD_EXCEEDED_HI").1,
            activeAlertsCache := fun k =>
              if k = (sensorId, "THRESHOLD_EXCEEDED_LO") then none
              else if k = (sensorId, "THRESHOLD_EXCEEDED_HI") then none
              else st.activeAlertsCache k }),
         (auto_acknowledge_all_alerts st.db sensorId "THRESHOLD_EXCEEDED_LO").2 ++
         (auto_acknowledge_all_alerts
             (auto_acknowledge_all_alerts st.db sensorId "THRESHOLD_EXCEEDED_LO").1
             sensorId "THRESHOLD_EXCEEDED_HI").2) := by
  rcases alarmLo with _ | lo <;> rcases alarmHi with _ | hi
  · exact absurd ⟨rfl, rfl⟩ hcfg
  · have h2 : ¬ hi < value := hhi hi rfl
    simp [check_measurement_thresholds, h2]
  · have h1 : ¬ value < lo := hlo lo rfl
    simp [check_measurement_thresholds, h1]
  · have h1 : ¬ value < lo := hlo lo rfl
    have h2 : ¬ hi < value := hhi hi rfl
    simp [check_measurement_thresholds, h1, h2]

/-- C4 (amended): for a sensor with at least one configured threshold, a
measurement inside [alarm_lo, alarm_hi] (an unset bound counting as
infinite) makes `check_measurement_thresholds` acknowledge every active
THRESHOLD_EXCEEDED_LO / THRESHOLD_EXCEEDED_HI alert of that sensor exactly
once each, remove both active-alert cache entries (leaving all other keys
untouched), and return without creating any alert (the table keeps exactly
its previous rows, by id) — provided the table holds at most 1000
unacknowledged rows, the fetch limit of `get_alerts(ack=False,
limit=1000)`.  Beyond that limit the guarantee fails: see the
counterexample below. -/
theorem c4_in_range_auto_ack (st : AlertEngineState) (sensorId : String)
    (value : ℚ) (alarmLo alarmHi : Option ℚ) (now : ℚ) (insertOk : Bool) (newId : ℤ)
    (hcfg : ¬ (alarmLo = none ∧ alarmHi = none))
    (hlo : ∀ lo ∈ alarmLo, lo ≤ value)
    (hhi : ∀ hi ∈ alarmHi, value ≤ hi)
    (hn : (st.db.map (·.id)).Nodup)
    (hlim : (st.db.filter fun a => !a.ack).length ≤ 1000) :
    (check_measurement_thresholds st sensorId value alarmLo alarmHi now insertOk
        newId).1.1 = none ∧
    (check_measurement_thresholds st sensorId value alarmLo alarmHi now insertOk
        newId).1.2.activeAlertsCache (sensorId, "THRESHOLD_EXCEEDED_LO") = none ∧
    (check_measurement_thresholds st sensorId value alarmLo alarmHi now insertOk
        newId).1.2.activeAlertsCache (sensorId, "THRESHOLD_EXCEEDED_HI") = none ∧
    (∀ k, k ≠ (sensorId, "THRESHOLD_EXCEEDED_LO") →
      k ≠ (sensorId, "THRESHOLD_EXCEEDED_HI") →
      (check_measurement_thresholds st sensorId value alarmLo alarmHi now insertOk
        newId).1.2.activeAlertsCache k = st.activeAlertsCache k) ∧
    (check_measurement_thresholds st sensorId value alarmLo alarmHi now insertOk
        newId).1.2.db.map (·.id) = st.db.map (·.id) ∧
    (check_measurement_thresholds st sensorId value alarmLo alarmHi now insertOk
        newId).1.2.lastAlertCache = st.lastAlertCache ∧
    ∀ a ∈ st.db, a.ack = false → a.sensorId = some sensorId →
      (a.code = "THRESHOLD_EXCEEDED_LO" ∨ a.code = "THRESHOLD_EXCEEDED_HI") →
      (∀ b ∈ (check_measurement_thresholds st sensorId value alarmLo alarmHi now
          insertOk newId).1.2.db, b.id = a.id → b.ack = true) ∧
      (check_measurement_thresholds st sensorId value alarmLo alarmHi now insertOk
          newId).2.count a.id = 1 := by
  have heq := check_in_range_eq st sensorId value alarmLo alarmHi now insertOk newId
    hcfg (fun lo h => not_lt.mpr (hlo lo h)) (fun hi h => not_lt.mpr (hhi hi h))
  rw [heq]
  have hn1 : ((auto_acknowledge_all_alerts st.db sensorId
      "THRESHOLD_EXCEEDED_LO").1.map (·.id)).Nodup := by
    rw [auto_ack_map_id]
    exact hn
  have hlim1 : ((auto_acknowledge_all_alerts st.db sensorId
      "THRESHOLD_EXCEEDED_LO").1.filter fun a => !a.ack).length ≤ 1000 :=
    le_trans (auto_ack_filter_le _ _ _) hlim
  refine ⟨rfl, by simp, by simp, ?_, ?_, rfl, ?_⟩
  · intro k hk1 hk2
    simp [hk1, hk2]
  · rw [auto_ack_map_id, auto_ack_map_id]
  · intro a ha hak hsid hcode
    rcases hcode with hcode | hcode
    · -- an active LO alert: acknowledged once by the LO pass, untouched after
      have hm : alertRowMatches sensorId "THRESHOLD_EXCEEDED_LO" a = true :=
        alertRowMatches_of_sensor hsid hcode
      obtain ⟨hmem1, hcount1, hacked1⟩ :=
        auto_ack_complete st.db sensorId "THRESHOLD_EXCEEDED_LO" hn hlim ha hak hm
      have hnot2 : a.id ∉ (auto_acknowledge_all_alerts
          (auto_acknowledge_all_alerts st.db sensorId "THRESHOLD_EXCEEDED_LO").1
          sensorId "THRESHOLD_EXCEEDED_HI").2 :=
        auto_ack_not_in_log _ _ _ _ hacked1
      refine ⟨auto_ack_keeps_acked _ _ _ _ hacked1, ?_⟩
      rw [List.count_append, hcount1, List.count_eq_zero.mpr hnot2]
    · -- an active HI alert: survives the LO pass, acknowledged once by the HI pass
      have hne : a.code ≠ "THRESHOLD_EXCEEDED_LO" := by
        rw [hcode]
        decide
      obtain ⟨hmem1, hnot1⟩ :=
        auto_ack_preserves st.db sensorId "THRESHOLD_EXCEEDED_LO" hn ha hne
      have hm : alertRowMatches sensorId "THRESHOLD_EXCEEDED_HI" a = true :=
        alertRowMatches_of_sensor hsid hcode
      obtain ⟨hmem2, hcount2, hacked2⟩ :=
        auto_ack_complete _ sensorId "THRESHOLD_EXCEEDED_HI" hn1 hlim1 hmem1 hak hm
      refine ⟨hacked2, ?_⟩
      rw [List.count_append, hcount2, List.count_eq_zero.mpr hnot1]

/-- Witness for C4: one active HI alert for sensor S is auto-acknowledged
when the value re-enters range. -/
theorem c4_in_range_auto_ack_witness :
    (check_measurement_thresholds
        ⟨fun _ => none,
         fun k => if k = ("S", "THRESHOLD_EXCEEDED_HI") then some 1 else none,
         [⟨1, some "S", "THRESHOLD_EXCEEDED_HI", "m", false⟩]⟩
        "S" 0 none (some 5) 0 true 7).1.1 = none ∧
    (check_measurement_thresholds
        ⟨fun _ => none,
         fun k => if k = ("S", "THRESHOLD_EXCEEDED_HI") then some 1 else none,
         [⟨1, some "S", "THRESHOLD_EXCEEDED_HI", "m", false⟩]⟩
        "S" 0 none (some 5) 0 true 7).1.2.activeAlertsCache
      ("S", "THRESHOLD_EXCEEDED_HI") = none :=
  have h := c4_in_range_auto_ack
    ⟨fun _ => none,
     fun k => if k = ("S", "THRESHOLD_EXCEEDED_HI") then some 1 else none,
     [⟨1, some "S", "THRESHOLD_EXCEEDED_HI", "m", false⟩]⟩
    "S" 0 none (some 5) 0 true 7
    (by simp) (by simp) (by norm_num) (by simp) (by decide)
  ⟨h.1, h.2.2.1⟩

/-- C9: when the store insert of a threshold alert raises, the engine has
already recorded the emission time for the (sensor_id, code) key, caches
the sentinel id -1 as the active alert, persists nothing — and a repeat of
the same violating measurement strictly within the debounce window attempts
no further alert, leaving the state unchanged. -/
theorem c9_insert_failure_poisons_debounce (st : AlertEngineState) (sensorId : String)
    (value : ℚ) (alarmLo alarmHi : Option ℚ) (now now2 : ℚ) (newId : ℤ)
    (insertOk2 : Bool) (newId2 : ℤ)
    (hviol : (∃ lo ∈ alarmLo, value < lo) ∨ (∃ hi ∈ alarmHi, hi < value))
    (hfresh : ∀ c, st.lastAlertCache (sensorId, c) = none)
    (hwin : now2 - now < DEBOUNCE_WINDOW) :
    ∃ c, (c = "THRESHOLD_EXCEEDED_LO" ∨ c = "THRESHOLD_EXCEEDED_HI") ∧
      (check_measurement_thresholds st sensorId value alarmLo alarmHi now false
          newId).1.1 = some (-1) ∧
      (check_measurement_thresholds st sensorId value alarmLo alarmHi now false
          newId).1.2.db = st.db ∧
      (check_measurement_thresholds st sensorId value alarmLo alarmHi now false
          newId).1.2.lastAlertCache (sensorId, c) = some now ∧
      (check_measurement_thresholds st sensorId value alarmLo alarmHi now false
          newId).1.2.activeAlertsCache (sensorId, c) = some (-1) ∧
      (check_measurement_thresholds
          (check_measurement_thresholds st sensorId value alarmLo alarmHi now false
            newId).1.2
          sensorId value alarmLo alarmHi now2 insertOk2 newId2).1.1 = none ∧
      (check_measurement_thresholds
          (check_measurement_thresholds st sensorId value alarmLo alarmHi now false
            newId).1.2
          sensorId value alarmLo alarmHi now2 insertOk2 newId2).1.2
        = (check_measurement_thresholds st sensorId value alarmLo alarmHi now false
            newId).1.2 := by
  rcases alarmLo with _ | lo <;> rcases alarmHi with _ | hi
  · simp at hviol
  · have h2 : hi < value := by
      rcases hviol with ⟨lo, hlo, _⟩ | ⟨hi2, hhi2, hv⟩
      · simp at hlo
      · rw [Option.mem_def, Option.some_inj] at hhi2
        exact hhi2 ▸ hv
    refine ⟨"THRESHOLD_EXCEEDED_HI", Or.inr rfl, ?_⟩
    simp [check_measurement_thresholds, should_create_alert, create_alert, h2,
      hfresh, hwin]
  · have h1 : value < lo := by
      rcases hviol with ⟨lo2, hlo2, hv⟩ | ⟨hi, hhi, _⟩
      · rw [Option.mem_def, Option.some_inj] at hlo2
        exact hlo2 ▸ hv
      · simp at hhi
    refine ⟨"THRESHOLD_EXCEEDED_LO", Or.inl rfl, ?_⟩
    simp [check_measurement_thresholds, should_create_alert, create_alert, h1,
      hfresh, hwin]
  · by_cases h1 : value < lo
    · refine ⟨"THRESHOLD_EXCEEDED_LO", Or.inl rfl, ?_⟩
      simp [check_measurement_thresholds, should_create_alert, create_alert, h1,
        hfresh, hwin]
    · have h2 : hi < value := by
        rcases hviol with ⟨lo2, hlo2, hv⟩ | ⟨hi2, hhi2, hv⟩
        · rw [Option.mem_def, Option.some_inj] at hlo2
          exact absurd (hlo2 ▸ hv) h1
        · rw [Option.mem_def, Option.some_inj] at hhi2
          exact hhi2 ▸ hv
      refine ⟨"THRESHOLD_EXCEEDED_HI", Or.inr rfl, ?_⟩
      simp [check_measurement_thresholds, should_create_alert, create_alert, h1, h2,
        hfresh, hwin]

/-- Witness for C9: a failed insert at time 0 suppresses the retry at
time 30 although nothing was persisted. -/
theorem c9_insert_failure_witness :
    ∃ c, (c = "THRESHOLD_EXCEEDED_LO" ∨ c = "THRESHOLD_EXCEEDED_HI") ∧
      (check_measurement_thresholds ⟨fun _ => none, fun _ => none, []⟩
          "S" 10 none (some 5) 0 false 7).1.1 = some (-1) ∧
      (check_measurement_thresholds ⟨fun _ => none, fun _ => none, []⟩
          "S" 10 none (some 5) 0 false 7).1.2.db
        = (⟨fun _ => none, fun _ => none, []⟩ : AlertEngineState).db ∧
      (check_measurement_thresholds ⟨fun _ => none, fun _ => none, []⟩
          "S" 10 none (some 5) 0 false 7).1.2.lastAlertCache ("S", c) = some 0 ∧
      (check_measurement_thresholds ⟨fun _ => none, fun _ => none, []⟩
          "S" 10 none (some 5) 0 false 7).1.2.activeAlertsCache ("S", c) = some (-1) ∧
      (check_measurement_thresholds
          (check_measurement_thresholds ⟨fun _ => none, fun _ => none, []⟩
            "S" 10 none (some 5) 0 false 7).1.2
          "S" 10 none (some 5) 30 true 8).1.1 = none ∧
      (check_measurement_thresholds
          (check_measurement_thresholds ⟨fun _ => none, fun _ => none, []⟩
            "S" 10 none (some 5) 0 false 7).1.2
          "S" 10 none (some 5) 30 true 8).1.2
        = (check_measurement_thresholds ⟨fun _ => none, fun _ => none, []⟩
            "S" 10 none (some 5) 0 false 7).1.2 :=
  c9_insert_failure_poisons_debounce ⟨fun _ => none, fun _ => none, []⟩
    "S" 10 none (some 5) 0 30 7 true 8
    (Or.inr ⟨5, rfl, by norm_num⟩) (fun _ => rfl) (by norm_num [DEBOUNCE_WINDOW])

/-- C3 counterexample: with the last emission for a key recorded at time 0
and a call at time exactly 60 = DEBOUNCE_WINDOW, `_should_create_alert`
allows a new alert although the last emission is not *more than* the window
ago (the source test is `elapsed < DEBOUNCE_WINDOW`, so elapsed exactly
equal to the window already re-emits). -/
theorem c3_debounce_counterexample :
    (should_create_alert
        (fun k => if k = ("UNIT_2_TILT_X", "THRESHOLD_EXCEEDED_HI") then some 0 else none)
        ("UNIT_2_TILT_X", "THRESHOLD_EXCEEDED_HI") 60).1 = true ∧
    (fun k => if k = ("UNIT_2_TILT_X", "THRESHOLD_EXCEEDED_HI") then some 0 else none)
        ("UNIT_2_TILT_X", "THRESHOLD_EXCEEDED_HI") = some 0 ∧
    ¬ ((60 : ℚ) - 0 > DEBOUNCE_WINDOW) := by
  refine ⟨?_, rfl, by norm_num [DEBOUNCE_WINDOW]⟩
  norm_num [should_create_alert, DEBOUNCE_WINDOW]

/-- C3 (amended): a new alert for a key is created exactly when no emission
is recorded for it or the last recorded emission is at least
`debounce_window_sec` ago; every created alert records its emission time,
and any further attempt for the same key strictly within the window is
refused with the cache unchanged — so two created alerts for a key are
always at least the window apart. -/
theorem c3_debounce_amended (cache : AlertKey → Option ℚ) (key : AlertKey)
    (now now2 : ℚ) :
    ((should_create_alert cache key now).1 = true ↔
      (cache key = none ∨ ∃ t, cache key = some t ∧ DEBOUNCE_WINDOW ≤ now - t)) ∧
    ((should_create_alert cache key now).1 = true →
      (should_create_alert cache key now).2 key = some now ∧
      (now2 - now < DEBOUNCE_WINDOW →
        should_create_alert (should_create_alert cache key now).2 key now2
          = (false, (should_create_alert cache key now).2))) := by
  cases hc : cache key with
  | none =>
    refine ⟨by simp [should_create_alert, hc], fun _ => ⟨by simp [should_create_alert, hc], ?_⟩⟩
    intro h2
    simp [should_create_alert, hc, h2]
  | some t =>
    by_cases hlt : now - t < DEBOUNCE_WINDOW
    · refine ⟨?_, ?_⟩
      · simp only [should_create_alert, hc, if_pos hlt]
        simp
        exact hlt
      · intro habs
        simp only [should_create_alert, hc, if_pos hlt] at habs
        cases habs
    · refine ⟨?_, fun _ => ⟨by simp [should_create_alert, hc, hlt], ?_⟩⟩
      · simp only [should_create_alert, hc, if_neg hlt]
        simp
        exact le_of_not_lt hlt
      · intro h2
        simp [should_create_alert, hc, hlt, h2]

/-- Witness for C3 (amended) on a fresh cache at times 0 and 30. -/
theorem c3_debounce_amended_witness :
    (((should_create_alert (fun _ => none) ("S", "THRESHOLD_EXCEEDED_HI") 0).1 = true ↔
      ((fun _ => none : AlertKey → Option ℚ) ("S", "THRESHOLD_EXCEEDED_HI") = none ∨
        ∃ t, (fun _ => none : AlertKey → Option ℚ) ("S", "THRESHOLD_EXCEEDED_HI") = some t ∧
          DEBOUNCE_WINDOW ≤ 0 - t)) ∧
    ((should_create_alert (fun _ => none) ("S", "THRESHOLD_EXCEEDED_HI") 0).1 = true →
      (should_create_alert (fun _ => none) ("S", "THRESHOLD_EXCEEDED_HI") 0).2
        ("S", "THRESHOLD_EXCEEDED_HI") = some 0 ∧
      ((30 : ℚ) - 0 < DEBOUNCE_WINDOW →
        should_create_alert
          (should_create_alert (fun _ => none) ("S", "THRESHOLD_EXCEEDED_HI") 0).2
          ("S", "THRESHOLD_EXCEEDED_HI") 30
          = (false,
             (should_create_alert (fun _ => none) ("S", "THRESHOLD_EXCEEDED_HI") 0).2)))) :=
  c3_debounce_amended (fun _ => none) ("S", "THRESHOLD_EXCEEDED_HI") 0 30

/-! ## Alias codec (`data_normalizer.py`) -/

/-- The packing loop of `DataNormalizer.encode_alias` (lines 228-232):
two bytes per register, MSB first (`(msb << 8) | lsb`, which for byte
values equals `msb * 256 + lsb`).  The one-byte tail case mirrors the
source's `lsb = 0` fallback (unreachable after padding). -/
def packRegisters : List ℕ → List ℕ
  | [] => []
  | [msb] => [msb * 256]
  | msb :: lsb :: rest => (msb * 256 + lsb) :: packRegisters rest

/-- The unpacking loop of `DataNormalizer.decode_alias` (lines 193-196):
`(reg >> 8) & 0xFF` then `reg & 0xFF` per register. -/
def unpackRegisters : List ℕ → List ℕ
  | [] => []
  | r :: rest => (r / 256 % 256) :: (r % 256) :: unpackRegisters rest

/-- Python's `str.strip('\x00')`: remove leading and trailing NUL bytes. -/
def stripNulBytes (l : List ℕ) : List ℕ :=
  ((l.dropWhile (· == 0)).reverse.dropWhile (· == 0)).reverse

/-- `DataNormalizer.encode_alias` (lines 208-234) at byte level (the
`encode('ascii', errors='ignore')` of an ASCII string is its byte
sequence): truncate to 64 bytes, report that length, pad to even length
with 0x00 and pack MSB-first. -/
def encode_alias (s : List ℕ) : ℕ × List ℕ :=
  ((s.take 64).length,
   packRegisters (if (s.take 64).length % 2 ≠ 0 then s.take 64 ++ [0] else s.take 64))

/-- `DataNormalizer.decode_alias` (lines 174-206) at byte level: empty for
length 0; otherwise clamp the length to 64, unpack, keep the first
`alias_len` bytes, drop non-ASCII bytes (`errors='ignore'`) and strip NUL
from both ends. -/
def decode_alias (aliasLen : ℕ) (aliasRegs : List ℕ) : List ℕ :=
  if aliasLen = 0 then []
  else
    stripNulBytes
      (((unpackRegisters aliasRegs).take (min aliasLen 64)).filter
        (fun b => decide (b < 128)))

theorem unpack_pack_even (l : List ℕ) (hb : ∀ b ∈ l, b < 256)
    (he : l.length % 2 = 0) : unpackRegisters (packRegisters l) = l := by
  induction l using packRegisters.induct with
  | case1 => rfl
  | case2 msb => simp at he
  | case3 msb lsb rest ih =>
    have hmsb : msb < 256 := hb msb (by simp)
    have hlsb : lsb < 256 := hb lsb (by simp)
    have hrest : unpackRegisters (packRegisters rest) = rest :=
      ih (fun b hbm => hb b (by simp [hbm])) (by simp at he; omega)
    have h1 : (msb * 256 + lsb) / 256 % 256 = msb := by omega
    have h2 : (msb * 256 + lsb) % 256 = lsb := by omega
    simp only [packRegisters, unpackRegisters, hrest, h1, h2]

/-- C7 counterexample: the byte string 0x00 0x41 ("\x00A", ASCII, length
2, even so no padding is added) decodes back to just 0x41: the leading NUL
of the original string is stripped, so the round trip is not the identity
even modulo a trailing padding byte. -/
theorem c7_alias_roundtrip_counterexample :
    (∀ b ∈ ([0, 65] : List ℕ), b < 128) ∧ ([0, 65] : List ℕ).length ≤ 64 ∧
    decode_alias (encode_alias [0, 65]).1 (encode_alias [0, 65]).2 = [65] ∧
    ¬ (decode_alias (encode_alias [0, 65]).1 (encode_alias [0, 65]).2 = [0, 65] ∨
       decode_alias (encode_alias [0, 65]).1 (encode_alias [0, 65]).2 ++ [0] = [0, 65] ∨
       decode_alias (encode_alias [0, 65]).1 (encode_alias [0, 65]).2 = [0, 65] ++ [0]) := by
  decide

/-- C7 (amended): for every ASCII byte string of length 0..64, decoding
the result of `encode_alias` yields the string with its leading and
trailing 0x00 bytes stripped; in particular, for strings without NUL at
either end, the round trip is the exact identity (the padding byte never
reappears because the encoded length excludes it). -/
theorem c7_alias_roundtrip (s : List ℕ) (hascii : ∀ b ∈ s, b < 128)
    (hlen : s.length ≤ 64) :
    decode_alias (encode_alias s).1 (encode_alias s).2 = stripNulBytes s := by
  have htake : s.take 64 = s := List.take_of_length_le hlen
  by_cases hz : s.length = 0
  · rw [List.length_eq_zero.mp hz]
    rfl
  · have hb : ∀ b ∈ (if s.length % 2 ≠ 0 then s ++ [0] else s), b < 256 := by
      split
      · intro b hbm
        rcases List.mem_append.mp hbm with h | h
        · exact lt_trans (hascii b h) (by norm_num)
        · simp at h
          omega
      · intro b hbm
        exact lt_trans (hascii b hbm) (by norm_num)
    have he : (if s.length % 2 ≠ 0 then s ++ [0] else s).length % 2 = 0 := by
      split
      · simp
        omega
      · omega
    have hmin : min s.length 64 = s.length := by omega
    have htk : (if s.length % 2 ≠ 0 then s ++ [0] else s).take s.length = s := by
      split
      · rw [List.take_append_of_le_length (le_refl _), List.take_length]
      · exact List.take_length s
    have hfil : s.filter (fun b => decide (b < 128)) = s :=
      List.filter_eq_self.mpr (fun b hbm => decide_eq_true (hascii b hbm))
    simp only [encode_alias, decode_alias, htake]
    rw [if_neg hz, unpack_pack_even _ hb he, hmin, htk, hfil]

/-- Witness for C7 (amended) on the ASCII bytes of "To". -/
theorem c7_alias_roundtrip_witness :
    decode_alias (encode_alias [84, 111]).1 (encode_alias [84, 111]).2
      = stripNulBytes [84, 111] :=
  c7_alias_roundtrip [84, 111] (by decide) (by decide)

set_option maxRecDepth 4000 in
/-- C4 counterexample: with 1001 unacknowledged rows, the
`get_alerts(ack=False, limit=1000)` fetch misses the 1001st row in query
order.  Here that row is an active THRESHOLD_EXCEEDED_HI alert (ack false)
for sensor S; a measurement of S back inside range returns without
acknowledging anything: the acknowledgement log is empty and the table
comes back unchanged, the victim row still unacknowledged — refuting the
original claim that every active alert for the sensor is acknowledged
exactly once. -/
theorem c4_in_range_auto_ack_counterexample :
    (⟨0, some "S", "THRESHOLD_EXCEEDED_HI", "m", false⟩ : AlertRow) ∈
      List.replicate 1000 (⟨1, some "X", "OTHER", "m", false⟩ : AlertRow) ++
        [(⟨0, some "S", "THRESHOLD_EXCEEDED_HI", "m", false⟩ : AlertRow)] ∧
    (check_measurement_thresholds
        ⟨fun _ => none, fun _ => none,
          List.replicate 1000 (⟨1, some "X", "OTHER", "m", false⟩ : AlertRow) ++
            [(⟨0, some "S", "THRESHOLD_EXCEEDED_HI", "m", false⟩ : AlertRow)]⟩
        "S" 0 none (some 5) 0 true 7).1.1 = none ∧
    (check_measurement_thresholds
        ⟨fun _ => none, fun _ => none,
          List.replicate 1000 (⟨1, some "X", "OTHER", "m", false⟩ : AlertRow) ++
            [(⟨0, some "S", "THRESHOLD_EXCEEDED_HI", "m", false⟩ : AlertRow)]⟩
        "S" 0 none (some 5) 0 true 7).1.2.db
      = List.replicate 1000 (⟨1, some "X", "OTHER", "m", false⟩ : AlertRow) ++
          [(⟨0, some "S", "THRESHOLD_EXCEEDED_HI", "m", false⟩ : AlertRow)] ∧
    (check_measurement_thresholds
        ⟨fun _ => none, fun _ => none,
          List.replicate 1000 (⟨1, some "X", "OTHER", "m", false⟩ : AlertRow) ++
            [(⟨0, some "S", "THRESHOLD_EXCEEDED_HI", "m", false⟩ : AlertRow)]⟩
        "S" 0 none (some 5) 0 true 7).2 = [] := by
  have hfill : ∀ (c : String) (b : AlertRow),
      b ∈ List.replicate 1000 (⟨1, some "X", "OTHER", "m", false⟩ : AlertRow) →
      alertRowMatches "S" c b = false := by
    intro c b hb
    rw [List.eq_of_mem_replicate hb]
    have h1 : ((some "X" : Option String) == some "S") = false := by decide
    have h2 : ("S".startsWith "device_") = false := by decide
    simp [alertRowMatches, h1, h2]
  have hunack : (List.replicate 1000 (⟨1, some "X", "OTHER", "m", false⟩ : AlertRow) ++
      [(⟨0, some "S", "THRESHOLD_EXCEEDED_HI", "m", false⟩ : AlertRow)]).filter
        (fun a => !a.ack)
      = List.replicate 1000 (⟨1, some "X", "OTHER", "m", false⟩ : AlertRow) ++
        [(⟨0, some "S", "THRESHOLD_EXCEEDED_HI", "m", false⟩ : AlertRow)] := by
    apply List.filter_eq_self.mpr
    intro a ha
    rcases List.mem_append.mp ha with h | h
    · rw [List.eq_of_mem_replicate h]
      rfl
    · rw [List.mem_singleton.mp h]
      rfl
  have htake : ((List.replicate 1000 (⟨1, some "X", "OTHER", "m", false⟩ : AlertRow) ++
      [(⟨0, some "S", "THRESHOLD_EXCEEDED_HI", "m", false⟩ : AlertRow)]).take 1000)
      = List.replicate 1000 (⟨1, some "X", "OTHER", "m", false⟩ : AlertRow) := by
    have h := List.take_left
      (List.replicate 1000 (⟨1, some "X", "OTHER", "m", false⟩ : AlertRow))
      [(⟨0, some "S", "THRESHOLD_EXCEEDED_HI", "m", false⟩ : AlertRow)]
    rwa [List.length_replicate] at h
  have hpass : ∀ c : String,
      auto_acknowledge_all_alerts
        (List.replicate 1000 (⟨1, some "X", "OTHER", "m", false⟩ : AlertRow) ++
          [(⟨0, some "S", "THRESHOLD_EXCEEDED_HI", "m", false⟩ : AlertRow)]) "S" c
      = (List.replicate 1000 (⟨1, some "X", "OTHER", "m", false⟩ : AlertRow) ++
          [(⟨0, some "S", "THRESHOLD_EXCEEDED_HI", "m", false⟩ : AlertRow)], []) := by
    intro c
    rw [auto_ack_spec, hunack, htake]
    have hnil : (List.replicate 1000
        (⟨1, some "X", "OTHER", "m", false⟩ : AlertRow)).filter
        (alertRowMatches "S" c) = [] :=
      List.filter_eq_nil_iff.mpr fun b hb => by simp [hfill c b hb]
    rw [hnil, List.map_nil, setAckIn_nil]
  have hcheck := check_in_range_eq
    ⟨fun _ => none, fun _ => none,
      List.replicate 1000 (⟨1, some "X", "OTHER", "m", false⟩ : AlertRow) ++
        [(⟨0, some "S", "THRESHOLD_EXCEEDED_HI", "m", false⟩ : AlertRow)]⟩
    "S" 0 none (some 5) 0 true 7 (by simp) (by simp) (by norm_num)
  refine ⟨List.mem_append.mpr (Or.inr (List.mem_singleton.mpr rfl)), ?_, ?_, ?_⟩
  · rw [hcheck]
  · rw [hcheck]
    simp only [hpass]
  · rw [hcheck]
    simp only [hpass, List.append_nil]
